import Mathlib

set_option maxRecDepth 100000

/-!
# Verification of the AI dice roller extension

Shallow embedding of `src/script.js`: a SillyTavern extension registering a
function tool `roll_dice_formula`.  The extension's own code is `rollDice`
(the safe roll entry point), the `action` invocation handler, and
`registerAiDiceRoller`.  The dice engine it delegates to (`droll.validate`,
`droll.roll`) and the JSON serializer are host/library facilities not present
in the repository; they are modelled from the spec (grammar `N "d" M [("+"|"-") K]`
with N ≥ 1, M ≥ 2; uniform die values in `[1, M]`; `RollOutcome`
serialized as a JSON object with fields `total` and `rolls`).
-/

namespace AiDice

/-! ## Formula grammar (FormulaEngine, modelled from the spec) -/

/-- A parsed dice formula: `n` dice with `m` faces and flat modifier `k`.
Modelled from the spec: the grammar `N "d" M [("+"|"-") K]` of the external
`droll` library, which is not part of this repository. -/
structure ParsedFormula where
  n : Nat
  m : Nat
  k : Int
  deriving DecidableEq, Repr

/-- Numeric value of a digit character. -/
def digitVal (c : Char) : Nat := c.toNat - 48

/-- Read a big-endian digit string into a number, Horner style. -/
def readDigits : List Char → Nat → Nat
  | [], acc => acc
  | c :: cs, acc => readDigits cs (acc * 10 + digitVal c)

/-- A non-empty all-digit character run. -/
def isDigits (cs : List Char) : Bool := !cs.isEmpty && cs.all Char.isDigit

/-- Split a character list at the first occurrence of `sep`; `none` when
`sep` does not occur. -/
def splitOnFirst (sep : Char) : List Char → Option (List Char × List Char)
  | [] => none
  | c :: cs =>
    if c = sep then some ([], cs)
    else
      match splitOnFirst sep cs with
      | some (a, b) => some (c :: a, b)
      | none => none

/-- Split a character list at the first `+` or `-`; the sign stays with the
second component.  When no sign occurs the second component is empty. -/
def splitMod : List Char → List Char × List Char
  | [] => ([], [])
  | c :: cs =>
    if c = '+' ∨ c = '-' then ([], c :: cs)
    else
      let p := splitMod cs
      (c :: p.1, p.2)

/-- Parse an optional modifier suffix: empty means `0`, otherwise a sign
followed by digits. -/
def parseMod : List Char → Option Int
  | [] => some 0
  | c :: rest =>
    if c = '+' then
      if isDigits rest then some (readDigits rest 0) else none
    else if c = '-' then
      if isDigits rest then some (-(readDigits rest 0 : Int)) else none
    else none

/-- Parse a dice formula character list per the grammar
`N "d" M [("+"|"-") K]` with N ≥ 1 and M ≥ 2. -/
def parseChars (cs : List Char) : Option ParsedFormula :=
  match splitOnFirst 'd' cs with
  | none => none
  | some (npart, rest) =>
    let p := splitMod rest
    if isDigits npart && isDigits p.1 then
      match parseMod p.2 with
      | none => none
      | some k =>
        let n := readDigits npart 0
        let m := readDigits p.1 0
        if 1 ≤ n ∧ 2 ≤ m then some ⟨n, m, k⟩ else none
    else none

/-- Parse a dice formula string. -/
def parseFormula (s : String) : Option ParsedFormula := parseChars s.data

/-- Modelled from the spec: `droll.validate` — true iff the string matches
the dice-formula grammar. -/
def validate (s : String) : Bool := (parseFormula s).isSome

/-! ## Rolling (FormulaEngine, modelled from the spec) -/

/-- Result of a roll: the total and the ordered individual die results. -/
structure RollOutcome where
  total : Int
  rolls : List Nat
  deriving DecidableEq, Repr

/-- One die result drawn from the injected randomness source `rng`:
die `i` of an `m`-faced die lands on `rng i % m + 1`, always in `[1, m]`. -/
def rollDie (rng : Nat → Nat) (i : Nat) (m : Nat) : Nat := rng i % m + 1

/-- Modelled from the spec: `droll.roll` on a parsed formula — `n`
independent die values in `[1, m]`, total = sum of rolls + modifier. -/
def rollParsed (rng : Nat → Nat) (p : ParsedFormula) : RollOutcome :=
  let rolls := (List.range p.n).map (fun i => rollDie rng i p.m)
  ⟨(rolls.sum : Int) + p.k, rolls⟩

/-! ## JavaScript-level values -/

/-- The values a host could pass as the `formula` argument, should it bypass
schema validation: a string, or one of the non-string shapes the claims
mention. -/
inductive JSValue where
  | str : String → JSValue
  | num : Int → JSValue
  | bool : Bool → JSValue
  | undef : JSValue
  | nullv : JSValue
  | obj : JSValue
  deriving DecidableEq, Repr

/-- Whether a JS value is a string (`typeof formula === 'string'`). -/
def isStringV : JSValue → Bool
  | JSValue.str _ => true
  | _ => false

/-- JS template-literal string conversion of a value (`${formula}`). -/
def jsToString : JSValue → String
  | JSValue.str s => s
  | JSValue.num n => toString n
  | JSValue.bool b => if b then "true" else "false"
  | JSValue.undef => "undefined"
  | JSValue.nullv => "null"
  | JSValue.obj => "[object Object]"

/-! ## The extension's own code (`src/script.js`) -/

/-- The diagnostic-channel message `rollDice` emits for a rejected formula
(`console.error` at src/script.js:17). -/
def diagMsg (formula : JSValue) : String :=
  "[AI-Dice-Roller] Invalid dice formula provided: " ++ jsToString formula

/-- `rollDice` (src/script.js:15-21): returns `none` with a diagnostic log
entry when the argument is not a string or fails validation, otherwise the
droll roll result and no log entry. -/
def rollDice (rng : Nat → Nat) (formula : JSValue) : Option RollOutcome × List String :=
  match formula with
  | JSValue.str s =>
    match parseFormula s with
    | some p => (some (rollParsed rng p), [])
    | none => (none, [diagMsg (JSValue.str s)])
  | v => (none, [diagMsg v])

/-- Modelled from the spec: JSON serialization of a list of die values. -/
def serializeRolls : List Nat → String
  | [] => ""
  | [x] => toString x
  | x :: y :: xs => toString x ++ "," ++ serializeRolls (y :: xs)

/-- Modelled from the spec: `JSON.stringify` of a RollOutcome — a JSON
object with fields `total` and `rolls`. -/
def serializeOutcome (o : RollOutcome) : String :=
  "\x7b\"total\":" ++ toString o.total ++ ",\"rolls\":[" ++ serializeRolls o.rolls ++ "]\x7d"

/-- The error string `action` returns for a rejected formula
(src/script.js:71), with `${formula}` string-interpolated. -/
def errMsg (formula : JSValue) : String :=
  "Error: Invalid dice formula \"" ++ jsToString formula ++
    "\". Please provide a valid formula like '1d20' or '2d6+3'."

/-- The `action` invocation handler (src/script.js:58-75): rolls the dice
and returns either the JSON-serialized result or the error string.  A total
function: the embedded code has no failure path. -/
def action (rng : Nat → Nat) (formula : JSValue) : String :=
  match (rollDice rng formula).1 with
  | some result => serializeOutcome result
  | none => errMsg formula

/-! ## Tool registration (`registerAiDiceRoller`, src/script.js:26-88) -/

/-- The static tool descriptor data registered with the host. -/
structure ToolDescriptor where
  name : String
  displayName : String
  description : String
  requiredParams : List String
  stealth : Bool
  deriving DecidableEq, Repr

/-- The descriptor's description text, verbatim from src/script.js:51-55. -/
def descriptionText : String :=
  "Use this function for dice rolls. It returns a JSON object with 'total' and an array of 'rolls'.\n\n**Advantage/Disadvantage Rolls:**\n- **Advantage:** Set formula to '2d20'. You must then use the HIGHER value from the returned 'rolls' array.\n- **Disadvantage:** Set formula to '2d20'. You must then use the LOWER value from the returned 'rolls' array."

/-- The descriptor `registerAiDiceRoller` constructs (src/script.js:48-81). -/
def theDescriptor : ToolDescriptor :=
  { name := "roll_dice_formula"
    displayName := "AI Dice Roller"
    description := descriptionText
    requiredParams := ["formula"]
    stealth := false }

/-- Ways the host's registry can reject an installation. -/
inductive RegError where
  | duplicateName : RegError
  | incompatibleSchema : RegError
  | other : String → RegError
  deriving DecidableEq, Repr

/-- The host context the extension consumes: the tool-calling capability
query and the registry's reaction to an installation attempt (`none` =
accepts, `some e` = throws `e`). -/
structure HostContext where
  toolCallingSupported : Bool
  registryError : Option RegError
  deriving DecidableEq, Repr

/-- `context.registerFunctionTool` as the host exposes it: either accepts
the descriptor or throws. -/
def hostRegister (ctx : HostContext) (_d : ToolDescriptor) : Except RegError Unit :=
  match ctx.registryError with
  | some e => Except.error e
  | none => Except.ok ()

/-- Outcome of a registration attempt, as observed by the caller. -/
inductive RegResult where
  | skipped : RegResult
  | registered : ToolDescriptor → RegResult
  | failedLogged : RegError → RegResult
  deriving DecidableEq, Repr

/-- `registerAiDiceRoller` (src/script.js:26-88): skips when tool calling is
unsupported, otherwise installs the descriptor inside a try/catch; a registry
exception is caught and logged, never propagated (the return type carries no
error).  The second component is the console log. -/
def registerAiDiceRoller (ctx : HostContext) : RegResult × List String :=
  if !ctx.toolCallingSupported then
    (RegResult.skipped,
      ["[AI-Dice-Roller] Function calling is not supported or not enabled. The tool will not be registered."])
  else
    match hostRegister ctx theDescriptor with
    | Except.ok _ =>
      (RegResult.registered theDescriptor,
        ["[AI-Dice-Roller] Dice rolling function tool registered successfully with updated description for Advantage/Disadvantage."])
    | Except.error e =>
      (RegResult.failedLogged e,
        ["[AI-Dice-Roller] Failed to register the function tool:"])

/-! ## Substring search (for statements about the description text) -/

/-- `listStarts pat cs`: `pat` begins `cs`. -/
def listStarts : List Char → List Char → Bool
  | [], _ => true
  | _ :: _, [] => false
  | a :: as, b :: bs => a = b && listStarts as bs

/-- `listSub pat cs`: `pat` occurs contiguously inside `cs`. -/
def listSub (pat : List Char) : List Char → Bool
  | [] => listStarts pat []
  | c :: cs => listStarts pat (c :: cs) || listSub pat cs

/-- Substring occurrence on strings. -/
def containsSub (s pat : String) : Bool := listSub pat.data s.data

/-! ## Decimal printing (to build the well-formed formula strings the
claims quantify over) -/

/-- Big-endian decimal digits of `n` pushed onto `acc` (empty for `n = 0`). -/
def natDigitsAux (n : Nat) (acc : List Char) : List Char :=
  if h : n = 0 then acc
  else natDigitsAux (n / 10) (Char.ofNat (48 + n % 10) :: acc)
termination_by n
decreasing_by exact Nat.div_lt_self (Nat.pos_of_ne_zero h) (by norm_num)

/-- Big-endian decimal digits of `n`. -/
def natDigits (n : Nat) : List Char :=
  if n = 0 then ['0'] else natDigitsAux n []

/-- The modifier suffix `+K` or `-K` of a formula string. -/
def modChars (k : Int) : List Char :=
  if k < 0 then '-' :: natDigits k.natAbs else '+' :: natDigits k.toNat

/-- The well-formed formula string `NdM+K` (with `-` for negative `K`). -/
def mkFormula (n m : Nat) (k : Int) : String :=
  String.mk (natDigits n ++ 'd' :: (natDigits m ++ modChars k))

end AiDice

namespace AiDice

/-! ## Round-trip lemmas: parsing the printed formula recovers `(n, m, k)` -/

theorem readDigits_append (xs ys : List Char) (acc : Nat) :
    readDigits (xs ++ ys) acc = readDigits ys (readDigits xs acc) := by
  induction xs generalizing acc with
  | nil => rfl
  | cons c cs ih => simp [readDigits, ih]

theorem natDigitsAux_acc (n : Nat) (acc : List Char) :
    natDigitsAux n acc = natDigitsAux n [] ++ acc := by
  induction n using Nat.strong_induction_on generalizing acc with
  | _ n ih =>
    by_cases h : n = 0
    · simp [natDigitsAux, h]
    · have hlt : n / 10 < n := Nat.div_lt_self (Nat.pos_of_ne_zero h) (by norm_num)
      rw [natDigitsAux, dif_neg h, ih (n / 10) hlt (Char.ofNat (48 + n % 10) :: acc)]
      conv_rhs => rw [natDigitsAux, dif_neg h, ih (n / 10) hlt [Char.ofNat (48 + n % 10)]]
      simp

theorem digitChar_props (d : Nat) (h : d < 10) :
    (Char.ofNat (48 + d)).isDigit = true ∧ Char.ofNat (48 + d) ≠ 'd' ∧
      Char.ofNat (48 + d) ≠ '+' ∧ Char.ofNat (48 + d) ≠ '-' ∧
      digitVal (Char.ofNat (48 + d)) = d := by
  interval_cases d <;> exact ⟨by decide, by decide, by decide, by decide, by decide⟩

theorem readDigits_natDigitsAux (n : Nat) :
    readDigits (natDigitsAux n []) 0 = n := by
  induction n using Nat.strong_induction_on with
  | _ n ih =>
    by_cases h : n = 0
    · simp [natDigitsAux, h, readDigits]
    · rw [natDigitsAux, dif_neg h,
        natDigitsAux_acc (n / 10) [Char.ofNat (48 + n % 10)],
        readDigits_append,
        ih (n / 10) (Nat.div_lt_self (Nat.pos_of_ne_zero h) (by norm_num))]
      simp only [readDigits, (digitChar_props (n % 10) (Nat.mod_lt n (by omega))).2.2.2.2]
      omega

theorem natDigits_mem (n : Nat) (c : Char) (hc : c ∈ natDigits n) :
    c.isDigit = true ∧ c ≠ 'd' ∧ c ≠ '+' ∧ c ≠ '-' := by
  have aux : ∀ k : Nat, ∀ c : Char, c ∈ natDigitsAux k [] →
      c.isDigit = true ∧ c ≠ 'd' ∧ c ≠ '+' ∧ c ≠ '-' := by
    intro k
    induction k using Nat.strong_induction_on with
    | _ k ih =>
      intro c hc
      by_cases h : k = 0
      · rw [natDigitsAux, dif_pos h] at hc
        exact absurd hc (List.not_mem_nil c)
      · rw [natDigitsAux, dif_neg h,
          natDigitsAux_acc (k / 10) [Char.ofNat (48 + k % 10)]] at hc
        rcases List.mem_append.mp hc with h1 | h1
        · exact ih (k / 10) (Nat.div_lt_self (Nat.pos_of_ne_zero h) (by norm_num)) c h1
        · have := List.mem_singleton.mp h1
          subst this
          have hp := digitChar_props (k % 10) (Nat.mod_lt k (by omega))
          exact ⟨hp.1, hp.2.1, hp.2.2.1, hp.2.2.2.1⟩
  unfold natDigits at hc
  by_cases h : n = 0
  · rw [if_pos h] at hc
    have := List.mem_singleton.mp hc
    subst this
    refine ⟨by decide, by decide, by decide, by decide⟩
  · rw [if_neg h] at hc
    exact aux n c hc

theorem natDigits_ne_nil (n : Nat) : natDigits n ≠ [] := by
  unfold natDigits
  by_cases h : n = 0
  · simp [h]
  · rw [if_neg h, natDigitsAux, dif_neg h, natDigitsAux_acc]
    simp

theorem isDigits_natDigits (n : Nat) : isDigits (natDigits n) = true := by
  unfold isDigits
  rw [Bool.and_eq_true]
  constructor
  · cases hd : natDigits n with
    | nil => exact absurd hd (natDigits_ne_nil n)
    | cons c cs => simp [List.isEmpty]
  · rw [List.all_eq_true]
    intro c hc
    exact (natDigits_mem n c hc).1

theorem readDigits_natDigits (n : Nat) : readDigits (natDigits n) 0 = n := by
  unfold natDigits
  by_cases h : n = 0
  · simp [h, readDigits, digitVal]
  · rw [if_neg h]
    exact readDigits_natDigitsAux n

theorem splitOnFirst_append (a : List Char) (b : List Char)
    (ha : ∀ c ∈ a, c ≠ 'd') :
    splitOnFirst 'd' (a ++ 'd' :: b) = some (a, b) := by
  induction a with
  | nil => simp [splitOnFirst]
  | cons c cs ih =>
    have hc : c ≠ 'd' := ha c (List.mem_cons_self c cs)
    have ih' := ih (fun x hx => ha x (List.mem_cons_of_mem c hx))
    simp only [List.cons_append, splitOnFirst, if_neg hc, List.append_eq]
    rw [ih']

theorem splitMod_append (a : List Char) (s : Char) (b : List Char)
    (ha : ∀ c ∈ a, c ≠ '+' ∧ c ≠ '-') (hs : s = '+' ∨ s = '-') :
    splitMod (a ++ s :: b) = (a, s :: b) := by
  induction a with
  | nil => simp [splitMod, hs]
  | cons c cs ih =>
    have hc := ha c (List.mem_cons_self c cs)
    have hcond : ¬(c = '+' ∨ c = '-') := by
      rintro (h | h)
      · exact hc.1 h
      · exact hc.2 h
    have ih' := ih (fun x hx => ha x (List.mem_cons_of_mem c hx))
    simp only [List.cons_append, splitMod, if_neg hcond, List.append_eq]
    rw [ih']

theorem parseMod_modChars (k : Int) : parseMod (modChars k) = some k := by
  unfold modChars
  by_cases h : k < 0
  · rw [if_pos h]
    simp [parseMod, isDigits_natDigits, readDigits_natDigits, abs_of_neg h]
  · rw [if_neg h]
    simp [parseMod, isDigits_natDigits, readDigits_natDigits]
    omega

theorem parseFormula_mkFormula (n m : Nat) (k : Int) (hn : 1 ≤ n) (hm : 2 ≤ m) :
    parseFormula (mkFormula n m k) = some ⟨n, m, k⟩ := by
  unfold parseFormula mkFormula parseChars
  simp only [String.data]
  rw [splitOnFirst_append (natDigits n) (natDigits m ++ modChars k)
    (fun c hc => (natDigits_mem n c hc).2.1)]
  have hsplit : splitMod (natDigits m ++ modChars k) = (natDigits m, modChars k) := by
    unfold modChars
    by_cases h : k < 0
    · rw [if_pos h]
      exact splitMod_append (natDigits m) '-' (natDigits k.natAbs)
        (fun c hc => ⟨(natDigits_mem m c hc).2.2.1, (natDigits_mem m c hc).2.2.2⟩)
        (Or.inr rfl)
    · rw [if_neg h]
      exact splitMod_append (natDigits m) '+' (natDigits k.toNat)
        (fun c hc => ⟨(natDigits_mem m c hc).2.2.1, (natDigits_mem m c hc).2.2.2⟩)
        (Or.inl rfl)
  have hcond : 1 ≤ n ∧ 2 ≤ m := ⟨hn, hm⟩
  simp only [hsplit, isDigits_natDigits, Bool.and_self, if_pos rfl,
    parseMod_modChars, readDigits_natDigits, if_pos hcond]
  simp

/-! ## Claim theorems -/

/-- Claim C1: for every value of the `formula` argument (strings that fail
validation and non-string values included), the `action` invocation handler
returns a string and never raises: it is a total function whose value is
always either the serialized roll outcome or the error message. -/
theorem c1_action_always_returns_a_string (rng : Nat → Nat) (v : JSValue) :
    (∃ o : RollOutcome, (rollDice rng v).1 = some o ∧
      action rng v = serializeOutcome o) ∨
    ((rollDice rng v).1 = none ∧ action rng v = errMsg v) := by
  unfold action
  cases h : (rollDice rng v).1 with
  | some o => exact Or.inl ⟨o, rfl, rfl⟩
  | none => exact Or.inr ⟨rfl, rfl⟩

/-- Claim C2: every well-formed formula `NdM+K` with N ∈ [1,100],
M ∈ [2,100], K ∈ [-100,100] validates, and every roll outcome produced for
it has exactly N entries in `rolls`, each in `[1, M]`, with `total` the sum
of `rolls` plus K. -/
theorem c2_wellformed_formula_roll_outcome (n m : Nat) (k : Int)
    (rng : Nat → Nat) (hn : 1 ≤ n ∧ n ≤ 100) (hm : 2 ≤ m ∧ m ≤ 100)
    (_hk : -100 ≤ k ∧ k ≤ 100) :
    validate (mkFormula n m k) = true ∧
    ∀ o : RollOutcome, (rollDice rng (JSValue.str (mkFormula n m k))).1 = some o →
      o.rolls.length = n ∧ (∀ x ∈ o.rolls, 1 ≤ x ∧ x ≤ m) ∧
      o.total = (o.rolls.sum : Int) + k := by
  have hp := parseFormula_mkFormula n m k hn.1 hm.1
  constructor
  · unfold validate
    rw [hp]
    rfl
  · intro o ho
    simp only [rollDice, hp] at ho
    have ho' : o = rollParsed rng ⟨n, m, k⟩ := by
      exact (Option.some_injective _ ho.symm)
    subst ho'
    refine ⟨by simp [rollParsed], ?_, by simp [rollParsed]⟩
    intro x hx
    simp only [rollParsed, List.mem_map, List.mem_range] at hx
    obtain ⟨i, _, hxi⟩ := hx
    subst hxi
    have hmod : rng i % m < m := Nat.mod_lt _ (by omega)
    unfold rollDie
    omega

/-- Witness for C2 at the concrete formula `2d6+5` with a constant
randomness source. -/
theorem c2_wellformed_formula_roll_outcome_witness :
    ((1 ≤ 2 ∧ 2 ≤ 100) ∧ (2 ≤ 6 ∧ 6 ≤ 100) ∧ (-100 ≤ (5 : Int) ∧ (5 : Int) ≤ 100)) ∧
    (validate (mkFormula 2 6 5) = true ∧
      ∀ o : RollOutcome,
        (rollDice (fun _ => 3) (JSValue.str (mkFormula 2 6 5))).1 = some o →
        o.rolls.length = 2 ∧ (∀ x ∈ o.rolls, 1 ≤ x ∧ x ≤ 6) ∧
        o.total = (o.rolls.sum : Int) + 5) :=
  ⟨⟨⟨by decide, by decide⟩, ⟨by decide, by decide⟩, ⟨by decide, by decide⟩⟩,
    c2_wellformed_formula_roll_outcome 2 6 5 (fun _ => 3)
      ⟨by decide, by decide⟩ ⟨by decide, by decide⟩ ⟨by decide, by decide⟩⟩

/-- Claim C3: for every string failing validation the handler returns
exactly the invalid-formula error message naming the rejected input; in
particular for `"invalid"`. -/
theorem c3_invalid_formula_exact_error (rng : Nat → Nat) (s : String)
    (h : validate s = false) :
    action rng (JSValue.str s) =
      "Error: Invalid dice formula \"" ++ s ++
        "\". Please provide a valid formula like '1d20' or '2d6+3'." ∧
    action rng (JSValue.str "invalid") =
      "Error: Invalid dice formula \"invalid\". Please provide a valid formula like '1d20' or '2d6+3'." := by
  have hnone : parseFormula s = none := by
    unfold validate at h
    exact Option.not_isSome_iff_eq_none.mp (by simp [h])
  have hinv : parseFormula "invalid" = none := by decide
  constructor
  · simp [action, rollDice, hnone, errMsg, jsToString]
  · simp [action, rollDice, hinv, errMsg, jsToString]

/-- Witness for C3 at the concrete input `"invalid"`. -/
theorem c3_invalid_formula_exact_error_witness :
    validate "invalid" = false ∧
    (action (fun _ => 0) (JSValue.str "invalid") =
      "Error: Invalid dice formula \"invalid\". Please provide a valid formula like '1d20' or '2d6+3'." ∧
    action (fun _ => 0) (JSValue.str "invalid") =
      "Error: Invalid dice formula \"invalid\". Please provide a valid formula like '1d20' or '2d6+3'.") :=
  ⟨by decide, c3_invalid_formula_exact_error (fun _ => 0) "invalid" (by decide)⟩

/-- Claim C4: strings not matching the grammar — the listed examples
included — fail validation, and `rollDice` then returns `null` (no
exception: it is total) while reporting the rejected formula on the
diagnostic channel. -/
theorem c4_invalid_strings_null_and_logged (rng : Nat → Nat) (s : String)
    (h : validate s = false) :
    (rollDice rng (JSValue.str s)).1 = none ∧
    (rollDice rng (JSValue.str s)).2 =
      ["[AI-Dice-Roller] Invalid dice formula provided: " ++ s] ∧
    validate "" = false ∧ validate "d20" = false ∧ validate "1d" = false ∧
    validate "1x20" = false ∧ validate "  " = false ∧
    validate "20d1.5" = false := by
  have hnone : parseFormula s = none := by
    unfold validate at h
    exact Option.not_isSome_iff_eq_none.mp (by simp [h])
  refine ⟨?_, ?_, by decide, by decide, by decide, by decide, by decide, by decide⟩
  · simp [rollDice, hnone]
  · simp [rollDice, hnone, diagMsg, jsToString]

/-- Witness for C4 at the concrete input `"1x20"`. -/
theorem c4_invalid_strings_null_and_logged_witness :
    validate "1x20" = false ∧
    ((rollDice (fun _ => 0) (JSValue.str "1x20")).1 = none ∧
    (rollDice (fun _ => 0) (JSValue.str "1x20")).2 =
      ["[AI-Dice-Roller] Invalid dice formula provided: " ++ "1x20"] ∧
    validate "" = false ∧ validate "d20" = false ∧ validate "1d" = false ∧
    validate "1x20" = false ∧ validate "  " = false ∧
    validate "20d1.5" = false) :=
  ⟨by decide, c4_invalid_strings_null_and_logged (fun _ => 0) "1x20" (by decide)⟩

/-- Claim C5: every formula passing validation makes the handler return the
JSON serialization of the roll outcome; for `"1d20"` the outcome is a single
roll `r` with `1 ≤ r ≤ 20` and `total = r`. -/
theorem c5_valid_formula_json_result (rng : Nat → Nat) (s : String)
    (h : validate s = true) :
    (∃ o : RollOutcome, (rollDice rng (JSValue.str s)).1 = some o ∧
      action rng (JSValue.str s) = serializeOutcome o) ∧
    (∃ r : Nat, 1 ≤ r ∧ r ≤ 20 ∧
      (rollDice rng (JSValue.str "1d20")).1 = some ⟨(r : Int), [r]⟩ ∧
      action rng (JSValue.str "1d20") = serializeOutcome ⟨(r : Int), [r]⟩) := by
  constructor
  · unfold validate at h
    obtain ⟨p, hp⟩ := Option.isSome_iff_exists.mp h
    refine ⟨rollParsed rng p, ?_, ?_⟩
    · simp [rollDice, hp]
    · simp [action, rollDice, hp]
  · have hp : parseFormula "1d20" = some ⟨1, 20, 0⟩ := by decide
    refine ⟨rng 0 % 20 + 1, Nat.le_add_left 1 _, ?_, ?_, ?_⟩
    · have := Nat.mod_lt (rng 0) (show 0 < 20 by decide)
      omega
    · simp [rollDice, hp, rollParsed, rollDie, List.range_succ]
    · have hout : rollParsed rng ⟨1, 20, 0⟩ =
          RollOutcome.mk ((rng 0 % 20 + 1 : Nat) : Int) [rng 0 % 20 + 1] := by
        simp [rollParsed, rollDie, List.range_succ]
      simp [action, rollDice, hp, hout]

/-- Witness for C5 at the concrete input `"1d20"`. -/
theorem c5_valid_formula_json_result_witness :
    validate "1d20" = true ∧
    ((∃ o : RollOutcome, (rollDice (fun _ => 0) (JSValue.str "1d20")).1 = some o ∧
      action (fun _ => 0) (JSValue.str "1d20") = serializeOutcome o) ∧
    (∃ r : Nat, 1 ≤ r ∧ r ≤ 20 ∧
      (rollDice (fun _ => 0) (JSValue.str "1d20")).1 = some ⟨(r : Int), [r]⟩ ∧
      action (fun _ => 0) (JSValue.str "1d20") = serializeOutcome ⟨(r : Int), [r]⟩)) :=
  ⟨by decide, c5_valid_formula_json_result (fun _ => 0) "1d20" (by decide)⟩

/-- Claim C6, counterexample: the registered descriptor's description text
contains no instruction about expressing batched or repeated rolls as a
single larger-N formula — none of the words such an instruction would use
occur in it (while the text it does contain is the JSON-shape and
advantage/disadvantage guidance). -/
theorem c6_description_lacks_batching_counterexample :
    theDescriptor.description = descriptionText ∧
    containsSub theDescriptor.description "batch" = false ∧
    containsSub theDescriptor.description "Batch" = false ∧
    containsSub theDescriptor.description "single" = false ∧
    containsSub theDescriptor.description "larger" = false ∧
    containsSub theDescriptor.description "sequential" = false ∧
    containsSub theDescriptor.description "repeat" = false ∧
    containsSub theDescriptor.description "many" = false ∧
    containsSub theDescriptor.description "loop" = false :=
  ⟨rfl, by decide, by decide, by decide, by decide, by decide, by decide,
    by decide, by decide⟩

/-- Claim C6, amended: the registered descriptor's description instructs the
agent on the JSON return shape (`total` and `rolls`) and on
advantage/disadvantage via a `2d20` formula with the agent choosing the
higher or lower roll, but carries no batching instruction. -/
theorem c6_description_content :
    theDescriptor.description =
      "Use this function for dice rolls. It returns a JSON object with 'total' and an array of 'rolls'.\n\n**Advantage/Disadvantage Rolls:**\n- **Advantage:** Set formula to '2d20'. You must then use the HIGHER value from the returned 'rolls' array.\n- **Disadvantage:** Set formula to '2d20'. You must then use the LOWER value from the returned 'rolls' array." ∧
    containsSub theDescriptor.description "'total'" = true ∧
    containsSub theDescriptor.description "'rolls'" = true ∧
    containsSub theDescriptor.description "Set formula to '2d20'" = true ∧
    containsSub theDescriptor.description "HIGHER" = true ∧
    containsSub theDescriptor.description "LOWER" = true ∧
    containsSub theDescriptor.description "batch" = false ∧
    containsSub theDescriptor.description "larger" = false ∧
    containsSub theDescriptor.description "sequential" = false :=
  ⟨rfl, by decide, by decide, by decide, by decide, by decide, by decide,
    by decide, by decide⟩

/-- Claim C7: when the host reports tool calling unsupported, registration
skips — no descriptor is installed, nothing is raised, only the skip notice
is logged. -/
theorem c7_unsupported_host_skips_registration (ctx : HostContext)
    (h : ctx.toolCallingSupported = false) :
    registerAiDiceRoller ctx =
      (RegResult.skipped,
        ["[AI-Dice-Roller] Function calling is not supported or not enabled. The tool will not be registered."]) ∧
    ∀ d : ToolDescriptor, (registerAiDiceRoller ctx).1 ≠ RegResult.registered d := by
  have hreg : registerAiDiceRoller ctx =
      (RegResult.skipped,
        ["[AI-Dice-Roller] Function calling is not supported or not enabled. The tool will not be registered."]) := by
    simp [registerAiDiceRoller, h]
  exact ⟨hreg, fun d => by simp [hreg]⟩

/-- Witness for C7 at a concrete host context without tool calling. -/
theorem c7_unsupported_host_skips_registration_witness :
    (HostContext.mk false none).toolCallingSupported = false ∧
    (registerAiDiceRoller (HostContext.mk false none) =
      (RegResult.skipped,
        ["[AI-Dice-Roller] Function calling is not supported or not enabled. The tool will not be registered."]) ∧
    ∀ d : ToolDescriptor,
      (registerAiDiceRoller (HostContext.mk false none)).1 ≠ RegResult.registered d) :=
  ⟨rfl, c7_unsupported_host_skips_registration (HostContext.mk false none) rfl⟩

/-- Claim C8: when the host's registry throws on installation, the
exception is caught at the registration boundary, logged, and the function
returns normally (its total return type carries no propagated fault). -/
theorem c8_registry_throw_caught_and_logged (ctx : HostContext) (e : RegError)
    (h1 : ctx.toolCallingSupported = true) (h2 : ctx.registryError = some e) :
    registerAiDiceRoller ctx =
      (RegResult.failedLogged e,
        ["[AI-Dice-Roller] Failed to register the function tool:"]) := by
  simp [registerAiDiceRoller, h1, hostRegister, h2]

/-- Witness for C8 at a concrete host context whose registry throws a
duplicate-name error. -/
theorem c8_registry_throw_caught_and_logged_witness :
    (HostContext.mk true (some RegError.duplicateName)).toolCallingSupported = true ∧
    (HostContext.mk true (some RegError.duplicateName)).registryError =
      some RegError.duplicateName ∧
    registerAiDiceRoller (HostContext.mk true (some RegError.duplicateName)) =
      (RegResult.failedLogged RegError.duplicateName,
        ["[AI-Dice-Roller] Failed to register the function tool:"]) :=
  ⟨rfl, rfl,
    c8_registry_throw_caught_and_logged
      (HostContext.mk true (some RegError.duplicateName))
      RegError.duplicateName rfl rfl⟩

/-- Claim C9: `"1d20+0"` validates, and with the same randomness source
rolling it produces exactly the same outcome (and diagnostics) as rolling
`"1d20"`. -/
theorem c9_explicit_zero_modifier_identical (rng : Nat → Nat) :
    validate "1d20+0" = true ∧
    rollDice rng (JSValue.str "1d20+0") = rollDice rng (JSValue.str "1d20") := by
  have h1 : parseFormula "1d20+0" = some ⟨1, 20, 0⟩ := by decide
  have h2 : parseFormula "1d20" = some ⟨1, 20, 0⟩ := by decide
  constructor
  · unfold validate
    rw [h1]
    rfl
  · simp [rollDice, h1, h2]

/-- Claim C10: a non-string `formula` (undefined, a number, an object, …)
makes `rollDice` return `null` — the string-typed branch is never entered —
and makes the handler return the invalid-formula error string instead of
crashing. -/
theorem c10_nonstring_formula_rejected (rng : Nat → Nat) (v : JSValue)
    (h : isStringV v = false) :
    (rollDice rng v).1 = none ∧
    action rng v = errMsg v ∧
    action rng v = "Error: Invalid dice formula \"" ++ jsToString v ++
      "\". Please provide a valid formula like '1d20' or '2d6+3'." := by
  cases v with
  | str s => exact absurd h (by simp [isStringV])
  | num n => exact ⟨rfl, rfl, rfl⟩
  | bool b => exact ⟨rfl, rfl, rfl⟩
  | undef => exact ⟨rfl, rfl, rfl⟩
  | nullv => exact ⟨rfl, rfl, rfl⟩
  | obj => exact ⟨rfl, rfl, rfl⟩

/-- Witness for C10 at the concrete non-string value `undefined`. -/
theorem c10_nonstring_formula_rejected_witness :
    isStringV JSValue.undef = false ∧
    ((rollDice (fun _ => 0) JSValue.undef).1 = none ∧
    action (fun _ => 0) JSValue.undef = errMsg JSValue.undef ∧
    action (fun _ => 0) JSValue.undef =
      "Error: Invalid dice formula \"" ++ jsToString JSValue.undef ++
        "\". Please provide a valid formula like '1d20' or '2d6+3'.") :=
  ⟨by decide, c10_nonstring_formula_rejected (fun _ => 0) JSValue.undef (by decide)⟩

end AiDice
